import Mathlib

/-!
# Verification of the pggateway session proxy engine

A shallow embedding, in Lean 4, of the `Session` type and its operations
from `config.go` of the pggateway repository: the authentication hand-off
(`Handle`, `GetUserPassword`, `parseStartupMessage`), the two message
forwarding directions (`proxyServerMessages`, `proxyClientMessages`), the
error-aggregation done by `proxy`, the logging wrappers
(`ParseClientRequest`, `ParseServerResponse`) and `String`.

I/O is made explicit: each parse of a message from a socket is represented
by a `ParseResult` value supplied as input, and each write to a socket by
an outcome drawn from an oracle `Nat → Option GoError`, so every function
here is a pure function of the session state and of those inputs, and the
values it would have sent on the wire are collected in explicit lists.
-/

/-- Go `error` values as the code distinguishes them: `io.EOF` is compared
for identity (`err == io.EOF`); every other error only carries a message. -/
inductive GoError where
  | eof
  | other (msg : String)
deriving DecidableEq, Repr

/-- `pgproto.AuthenticationMethod` (external codec collaborator).  The code
only ever compares a method against `pgproto.AuthenticationMethodOK`, so we
model the closed set as `OK` plus representative non-OK methods. -/
inductive AuthenticationMethod where
  | OK
  | cleartext
  | md5
deriving DecidableEq, Repr

/-- Server-originated `pgproto` message variants relevant to the core:
`ReadyForQuery`, `AuthenticationRequest` (method and salt),
`Error` (severity and message), and a catch-all for all other variants
(row data, command completion, ...), which the core never inspects. -/
inductive ServerMessage where
  | readyForQuery
  | authenticationRequest (method : AuthenticationMethod) (salt : String)
  | error (severity : String) (message : String)
  | other (tag : Nat)
deriving DecidableEq, Repr

/-- Client-originated `pgproto` message variants relevant to the core:
`StartupMessage` (SSL-request flag and option map), `PasswordMessage`,
`Termination`, and a catch-all for the remaining variants (queries, ...). -/
inductive ClientMessage where
  | startup (sslRequest : Bool) (options : List (String × String))
  | password (pwd : String)
  | termination
  | other (tag : Nat)
deriving DecidableEq, Repr

/-- Outcome of `pgproto.ParseClientMessage` / `pgproto.ParseServerMessage`
as the session code inspects it: a successfully decoded message
(`err == nil`), end of stream (`err == io.EOF`), or any other error. -/
inductive ParseResult (α : Type) where
  | success (msg : α)
  | eof
  | failure (e : String)
deriving DecidableEq, Repr

/-- One log event emitted through the plugin registry
(`plugins.LogDebug` / `plugins.LogError`), tagged with its level and the
format string the code passes. -/
inductive LogEvent where
  | debug (what : String)
  | error (what : String)
deriving DecidableEq, Repr

/-- The mutable fields of `Session` that the modelled operations read or
write.  Go byte slices (`User`, `Database`, `salt`, `password`) are
modelled as strings. -/
structure Session where
  ID : String
  User : String
  Database : String
  IsSSL : Bool
  salt : String
  password : String
deriving DecidableEq, Repr

/-- `Session.ParseClientRequest`, logging part: the log events one call
emits, as a function of the session's `stopped` flag and of the parse
outcome.  On `io.EOF` the function returns before any logging; on any
other error it calls `LogError` unless the session is stopped; on success
it calls `LogDebug`. -/
def parseClientRequestLogs (stopped : Bool) : ParseResult ClientMessage → List LogEvent
  | ParseResult.success _ => [LogEvent.debug "client request"]
  | ParseResult.eof => []
  | ParseResult.failure _ =>
      if stopped then [] else [LogEvent.error "error parsing client request: %s"]

/-- `Session.ParseServerResponse`, logging part: same shape as
`parseClientRequestLogs` with the server-side format strings. -/
def parseServerResponseLogs (stopped : Bool) : ParseResult ServerMessage → List LogEvent
  | ParseResult.success _ => [LogEvent.debug "server response"]
  | ParseResult.eof => []
  | ParseResult.failure _ =>
      if stopped then [] else [LogEvent.error "error parsing server response: %#v"]

/-- The flush test of `proxyServerMessages`: the `switch` on the freshly
appended message sets `flush` for a `ReadyForQuery`, and for an
`AuthenticationRequest` whose method is not `AuthenticationMethodOK`. -/
def shouldFlush : ServerMessage → Bool
  | ServerMessage.readyForQuery => true
  | ServerMessage.authenticationRequest m _ => m ≠ AuthenticationMethod.OK
  | _ => false

/-- The `Termination` test of `proxyClientMessages`. -/
def isTermination : ClientMessage → Bool
  | ClientMessage.termination => true
  | _ => false

/-- State threaded through one run of `proxyServerMessages`:
`buf` is the in-memory outbound buffer, `writes` the batched
`pgproto.WriteMessages` calls issued so far (each one batch, in order),
`writeResults` the outcome of each such call (which the code discards),
`errs` the goroutine's local `errs` slice after its appends, and `logs`
the log events emitted via `ParseServerResponse`. -/
structure ServerDirState where
  buf : List ServerMessage
  writes : List (List ServerMessage)
  writeResults : List (Option GoError)
  errs : List GoError
  logs : List LogEvent
deriving DecidableEq, Repr

/-- The state of a direction at entry of its loop. -/
def initServerDirState : ServerDirState :=
  { buf := [], writes := [], writeResults := [], errs := [], logs := [] }

/-- One successful iteration of the `proxyServerMessages` loop body: the
parse succeeded with `m` (so `ParseServerResponse` logged a debug event),
`m` is appended to `buf`, and the buffer is flushed — written to the
client as one batch and cleared — when `flush` is set for `m` or
`len(buf) > 15`.  The outcome of the batched write is taken from the
oracle `wr`, indexed by the number of writes already issued; the code
ignores it. -/
def serverHandleMsg (wr : Nat → Option GoError) (st : ServerDirState) (m : ServerMessage) :
    ServerDirState :=
  let st1 : ServerDirState := { st with logs := st.logs ++ [LogEvent.debug "server response"] }
  let buf1 : List ServerMessage := st1.buf ++ [m]
  if shouldFlush m || buf1.length > 15 then
    { st1 with
      buf := [],
      writes := st1.writes ++ [buf1],
      writeResults := st1.writeResults ++ [wr st1.writes.length] }
  else
    { st1 with buf := buf1 }

/-- The successful iterations of the `proxyServerMessages` loop over the
sequence of messages the direction parses before it ends. -/
def serverDirRun (wr : Nat → Option GoError) (st : ServerDirState)
    (msgs : List ServerMessage) : ServerDirState :=
  msgs.foldl (serverHandleMsg wr) st

/-- How a forwarding direction's loop ends: the `for !s.stopped` condition
became false (the other direction terminated), or the parse returned a
terminal result — end of stream or an error. -/
inductive LoopEnd where
  | stoppedFlag
  | eof
  | failure (e : String)
deriving DecidableEq, Repr

/-- The end of the `proxyServerMessages` loop.  On a terminal parse result
the direction appends the error to its local `errs` slice and broadcasts
the stop signal before breaking; a non-EOF parse error is also logged by
`ParseServerResponse` unless the session is already stopped.  When the
loop exits because `stopped` became true, nothing is recorded. -/
def serverDirEnd (stopped : Bool) (st : ServerDirState) : LoopEnd → ServerDirState
  | LoopEnd.stoppedFlag => st
  | LoopEnd.eof => { st with errs := st.errs ++ [GoError.eof] }
  | LoopEnd.failure e =>
      { st with
        errs := st.errs ++ [GoError.other e],
        logs := st.logs ++
          (if stopped then [] else [LogEvent.error "error parsing server response: %#v"]) }

/-- After the loop, `proxyServerMessages` issues one final batched write of
whatever remains in `buf`, if non-empty (the buffer variable itself goes
out of scope and is not cleared). -/
def serverDirFinal (wr : Nat → Option GoError) (st : ServerDirState) : ServerDirState :=
  if st.buf.length > 0 then
    { st with
      writes := st.writes ++ [st.buf],
      writeResults := st.writeResults ++ [wr st.writes.length] }
  else st

/-- One complete run of `proxyServerMessages`: the successfully parsed
messages `msgs`, then the loop end `e`, then the final flush.  `stopped`
is the value of `s.stopped` observed when a terminal parse error would be
logged. -/
def serverDirection (wr : Nat → Option GoError) (stopped : Bool)
    (msgs : List ServerMessage) (e : LoopEnd) : ServerDirState :=
  serverDirFinal wr (serverDirEnd stopped (serverDirRun wr initServerDirState msgs) e)

/-- State threaded through one run of `proxyClientMessages`: `forwards`
are the messages passed to `WriteToServer` so far, `writeResults` the
outcome of each such write (which the code discards), `errs` the
goroutine's local `errs` slice, `logs` the events emitted via
`ParseClientRequest`, and `terminated` records that the loop broke out
after forwarding a `Termination`. -/
structure ClientDirState where
  forwards : List ClientMessage
  writeResults : List (Option GoError)
  errs : List GoError
  logs : List LogEvent
  terminated : Bool
deriving DecidableEq, Repr

/-- The state of the client direction at entry of its loop. -/
def initClientDirState : ClientDirState :=
  { forwards := [], writeResults := [], errs := [], logs := [], terminated := false }

/-- The successful iterations of the `proxyClientMessages` loop: each
parsed message is logged (debug) and forwarded verbatim to the backend —
the return value of `s.WriteToServer(msg)` is discarded — and the loop
breaks after forwarding a `Termination`. -/
def clientDirRun (wr : Nat → Option GoError) (st : ClientDirState) :
    List ClientMessage → ClientDirState
  | [] => st
  | m :: ms =>
      let st1 : ClientDirState :=
        { st with
          logs := st.logs ++ [LogEvent.debug "client request"],
          forwards := st.forwards ++ [m],
          writeResults := st.writeResults ++ [wr st.forwards.length] }
      if isTermination m then { st1 with terminated := true }
      else clientDirRun wr st1 ms

/-- The end of the `proxyClientMessages` loop on a terminal parse result:
the error is appended to the goroutine's local `errs` slice and the stop
signal is broadcast; a non-EOF parse error is also logged by
`ParseClientRequest` unless the session is already stopped. -/
def clientDirEnd (stopped : Bool) (st : ClientDirState) : LoopEnd → ClientDirState
  | LoopEnd.stoppedFlag => st
  | LoopEnd.eof => { st with errs := st.errs ++ [GoError.eof] }
  | LoopEnd.failure e =>
      { st with
        errs := st.errs ++ [GoError.other e],
        logs := st.logs ++
          (if stopped then [] else [LogEvent.error "error parsing client request: %s"]) }

/-- One complete run of `proxyClientMessages`: the parsed messages `msgs`,
then — only when the loop did not already break at a `Termination` — the
loop end `e`. -/
def clientDirection (wr : Nat → Option GoError) (stopped : Bool)
    (msgs : List ClientMessage) (e : LoopEnd) : ClientDirState :=
  let st := clientDirRun wr initClientDirState msgs
  if st.terminated then st else clientDirEnd stopped st e

/-- The write oracle for runs in which every socket write succeeds. -/
def noWriteErrors : Nat → Option GoError := fun _ => none

/-!
## `Session.proxy`: error aggregation

`proxy` creates `errs := make([]error, 0)` — a slice of length 0 and
capacity 0 — and passes it by value to `go s.proxyClientMessages(stop,
errs)` and `go s.proxyServerMessages(stop, errs)`.  A Go slice value is
a header (array pointer, length, capacity) copied on every call;
`errs = append(errs, err)` inside a goroutine writes in place only when
spare capacity exists (here it never does: the capacity is 0, so
`append` allocates a fresh backing array) and in every case rebinds only
that goroutine's own copy of the header.  The variable `errs` in `proxy`
itself is never assigned again after `make`.  We model this with an
explicit heap of backing arrays and explicit slice headers. -/

/-- A Go slice header: index of its backing array in the heap, length,
and capacity. -/
structure GoSlice where
  arrId : Nat
  len : Nat
  cap : Nat
deriving DecidableEq, Repr

/-- The heap of `[]error` backing arrays allocated so far. -/
abbrev ErrHeap : Type := List (List GoError)

/-- The elements a slice header denotes: the first `len` entries of its
backing array. -/
def sliceElems (h : ErrHeap) (s : GoSlice) : List GoError :=
  (List.getD h s.arrId []).take s.len

/-- Go `append(s, e)`: if spare capacity exists the element is written in
place into the backing array; otherwise a fresh, larger backing array is
allocated holding the old elements and `e`.  Either way the returned
header (the only thing the caller of `append` sees updated) has length
`len + 1`. -/
def goAppend (h : ErrHeap) (s : GoSlice) (e : GoError) : ErrHeap × GoSlice :=
  if s.len < s.cap then
    (List.set h s.arrId
       (sliceElems h s ++ [e] ++ (List.getD h s.arrId []).drop (s.len + 1)),
     { s with len := s.len + 1 })
  else
    (h ++ [sliceElems h s ++ [e]],
     { arrId := h.length, len := s.len + 1, cap := s.len + 1 })

/-- A sequence of `append`s through one goroutine's copy of the header. -/
def goAppendAll (h : ErrHeap) (s : GoSlice) : List GoError → ErrHeap × GoSlice
  | [] => (h, s)
  | e :: es =>
      let r := goAppend h s e
      goAppendAll r.1 r.2 es

/-- The header `errs := make([]error, 0)` in `proxy`: a zero-length,
zero-capacity slice of a fresh empty backing array. -/
def proxyErrsHeader : GoSlice := { arrId := 0, len := 0, cap := 0 }

/-- The result of one run of `Session.proxy`: the final heap, the two
goroutines' local copies of the `errs` header after their appends (each
goroutine starts from a by-value copy of `proxyErrsHeader`), and the
caller's own header, which is never reassigned. -/
structure ProxyRun where
  heap : ErrHeap
  serverHeader : GoSlice
  clientHeader : GoSlice
  callerHeader : GoSlice
deriving DecidableEq, Repr

/-- One run of `Session.proxy` over the inputs of its two forwarding
directions (server side: messages then loop end; client side likewise).
Each goroutine appends the errors its direction records to its own
by-value copy of the `errs` header; `proxy` itself keeps the original
header. -/
def runProxy (wr : Nat → Option GoError)
    (serverMsgs : List ServerMessage) (serverEnd : LoopEnd)
    (clientMsgs : List ClientMessage) (clientEnd : LoopEnd) : ProxyRun :=
  let h0 : ErrHeap := [[]]
  let r1 := goAppendAll h0 proxyErrsHeader (serverDirection wr false serverMsgs serverEnd).errs
  let r2 := goAppendAll r1.1 proxyErrsHeader (clientDirection wr false clientMsgs clientEnd).errs
  { heap := r2.1, serverHeader := r1.2, clientHeader := r2.2,
    callerHeader := proxyErrsHeader }

/-- The value `proxy` returns after `stop.Wait()`: `errs[0]` when
`len(errs) > 0`, otherwise `nil` — read through `proxy`'s own header. -/
def proxyReturn (r : ProxyRun) : Option GoError :=
  if r.callerHeader.len > 0 then
    some ((sliceElems r.heap r.callerHeader).getD 0 GoError.eof)
  else none

/-- The errors a goroutine sees through its local header at the end of a
run of `proxy`. -/
def serverRecordedErrs (r : ProxyRun) : List GoError := sliceElems r.heap r.serverHeader

/-!
## Write-oracle-free observables of the two directions

The code discards the return value of every socket write
(`s.WriteToServer(msg)` and `pgproto.WriteMessages(buf, s.client)` are
both called for effect only), so everything a direction does other than
the write outcomes themselves is a function of its parse inputs alone.
The projections below drop the `writeResults` component; the `Obs` step
functions mirror the loop bodies and are, by construction, independent
of the write oracle.
-/

/-- The components of a `proxyServerMessages` run other than the
(discarded) outcomes of its writes. -/
structure ServerObs where
  buf : List ServerMessage
  writes : List (List ServerMessage)
  errs : List GoError
  logs : List LogEvent
deriving DecidableEq, Repr

/-- Projection of a server-direction state onto its observables. -/
def ServerDirState.obs (st : ServerDirState) : ServerObs :=
  { buf := st.buf, writes := st.writes, errs := st.errs, logs := st.logs }

/-- `serverHandleMsg` on observables (no write oracle). -/
def serverObsStep (o : ServerObs) (m : ServerMessage) : ServerObs :=
  let o1 : ServerObs := { o with logs := o.logs ++ [LogEvent.debug "server response"] }
  let buf1 : List ServerMessage := o1.buf ++ [m]
  if shouldFlush m || buf1.length > 15 then
    { o1 with buf := [], writes := o1.writes ++ [buf1] }
  else
    { o1 with buf := buf1 }

/-- `serverDirEnd` on observables. -/
def serverObsEnd (stopped : Bool) (o : ServerObs) : LoopEnd → ServerObs
  | LoopEnd.stoppedFlag => o
  | LoopEnd.eof => { o with errs := o.errs ++ [GoError.eof] }
  | LoopEnd.failure e =>
      { o with
        errs := o.errs ++ [GoError.other e],
        logs := o.logs ++
          (if stopped then [] else [LogEvent.error "error parsing server response: %#v"]) }

/-- `serverDirFinal` on observables. -/
def serverObsFinal (o : ServerObs) : ServerObs :=
  if o.buf.length > 0 then { o with writes := o.writes ++ [o.buf] } else o

/-- The components of a `proxyClientMessages` run other than the
(discarded) outcomes of its writes. -/
structure ClientObs where
  forwards : List ClientMessage
  errs : List GoError
  logs : List LogEvent
  terminated : Bool
deriving DecidableEq, Repr

/-- Projection of a client-direction state onto its observables. -/
def ClientDirState.obs (st : ClientDirState) : ClientObs :=
  { forwards := st.forwards, errs := st.errs, logs := st.logs,
    terminated := st.terminated }

/-- `clientDirRun` on observables (no write oracle). -/
def clientObsRun (o : ClientObs) : List ClientMessage → ClientObs
  | [] => o
  | m :: ms =>
      let o1 : ClientObs :=
        { o with
          logs := o.logs ++ [LogEvent.debug "client request"],
          forwards := o.forwards ++ [m] }
      if isTermination m then { o1 with terminated := true }
      else clientObsRun o1 ms

/-- `clientDirEnd` on observables. -/
def clientObsEnd (stopped : Bool) (o : ClientObs) : LoopEnd → ClientObs
  | LoopEnd.stoppedFlag => o
  | LoopEnd.eof => { o with errs := o.errs ++ [GoError.eof] }
  | LoopEnd.failure e =>
      { o with
        errs := o.errs ++ [GoError.other e],
        logs := o.logs ++
          (if stopped then [] else [LogEvent.error "error parsing client request: %s"]) }

/-!
## Handshake operations
-/

/-- Outcome of `plugins.Authenticate(s, s.startup)` as `Handle` inspects
it: an error, a negative result (`success == false`), or success. -/
inductive AuthOutcome where
  | failure
  | success
  | error (e : GoError)
deriving DecidableEq, Repr

/-- The observable result of `Session.Handle`: the server messages it
writes to the client itself, whether it entered the forwarding loop
(`s.proxy()`), and the error it returns. -/
structure HandleResult where
  clientWrites : List ServerMessage
  proxied : Bool
  result : Option GoError
deriving DecidableEq, Repr

/-- `Session.Handle`: on an authentication error, return it unchanged; on
a negative result, write a single `Error` message with severity `Fatal`
and message `failed to authenticate` to the client (the write's own
outcome is discarded) and return `nil`; on success, return `s.proxy()`,
whose return value is supplied here as `proxyRes`. -/
def handle (auth : AuthOutcome) (proxyRes : Option GoError) : HandleResult :=
  match auth with
  | AuthOutcome.error e => { clientWrites := [], proxied := false, result := some e }
  | AuthOutcome.failure =>
      { clientWrites := [ServerMessage.error "Fatal" "failed to authenticate"],
        proxied := false,
        result := none }
  | AuthOutcome.success => { clientWrites := [], proxied := true, result := proxyRes }

/-- Go map lookup `m.Options[key]` on the modelled option map. -/
def lookupOption (options : List (String × String)) (key : String) : Option String :=
  options.lookup key

/-- `Session.parseStartupMessage` over the outcome of its
`ParseClientRequest` call: a parse error propagates; an SSL negotiation
request is returned unchanged with no option extraction; any other
startup message must carry `user` and `database` options — `s.User` is
assigned from `user` first, then `s.Database` from `database`, a missing
option yielding an error; a non-startup message is an error.  Returns
the updated session fields and the result. -/
def parseStartupMessage (s : Session) (parsed : ParseResult ClientMessage) :
    Session × Except GoError ClientMessage :=
  match parsed with
  | ParseResult.eof => (s, Except.error GoError.eof)
  | ParseResult.failure e => (s, Except.error (GoError.other e))
  | ParseResult.success msg =>
      match msg with
      | ClientMessage.startup sslRequest options =>
          if sslRequest then (s, Except.ok msg)
          else
            match lookupOption options "user" with
            | none =>
                (s, Except.error (GoError.other "no username sent with startup message"))
            | some u =>
                let s1 : Session := { s with User := u }
                match lookupOption options "database" with
                | none =>
                    (s1,
                     Except.error (GoError.other "no database name sent with startup message"))
                | some d => ({ s1 with Database := d }, Except.ok msg)
      | _ => (s, Except.error (GoError.other "unexpected message type"))

/-- The observable result of `Session.GetUserPassword`: the updated
session fields, the server messages written to the client, and the
returned `(*AuthenticationRequest, *PasswordMessage, error)` triple,
collapsed to `Except`. -/
structure GetPwdResult where
  finalSession : Session
  clientWrites : List ServerMessage
  result : Except GoError (ServerMessage × ClientMessage)
deriving Repr

/-- `Session.GetUserPassword(method)`: build an `AuthenticationRequest`
carrying `method` and `s.salt` and write it to the client (`writeOutcome`
is the outcome of that `WriteToClient`; an error aborts); then read one
client message via `ParseClientRequest` (`parsed`); a parse error aborts;
a message other than a `PasswordMessage` is the error `expected password
message`; a `PasswordMessage` has its credential stored in `s.password`
and is returned together with the request, with no error. -/
def getUserPassword (s : Session) (method : AuthenticationMethod)
    (writeOutcome : Option GoError) (parsed : ParseResult ClientMessage) : GetPwdResult :=
  let auth : ServerMessage := ServerMessage.authenticationRequest method s.salt
  match writeOutcome with
  | some e => { finalSession := s, clientWrites := [auth], result := Except.error e }
  | none =>
      match parsed with
      | ParseResult.eof =>
          { finalSession := s, clientWrites := [auth], result := Except.error GoError.eof }
      | ParseResult.failure e =>
          { finalSession := s, clientWrites := [auth],
            result := Except.error (GoError.other e) }
      | ParseResult.success msg =>
          match msg with
          | ClientMessage.password p =>
              { finalSession := { s with password := p },
                clientWrites := [auth],
                result := Except.ok (auth, msg) }
          | _ =>
              { finalSession := s, clientWrites := [auth],
                result := Except.error (GoError.other "expected password message") }

/-!
## `Session.String`
-/

/-- Go `%#v` rendering of one character of a string value: quote and
backslash are escaped, other characters print as themselves (fidelity of
the remaining Go escape rules is immaterial to the claims below, which
only depend on which fields are rendered). -/
def goEscapeChar (c : Char) : String :=
  if c = '\x22' then "\\\x22" else if c = '\\' then "\\\\" else String.singleton c

/-- Go `%#v` rendering of a string value: a double-quoted Go literal. -/
def goQuote (s : String) : String :=
  "\x22" ++ String.join (s.data.map goEscapeChar) ++ "\x22"

/-- `Session.String`:
`fmt.Sprintf("Session<ID=%#v, User=%#v, Database=%#v>", s.ID,
string(s.User), string(s.Database))`. -/
def sessionString (s : Session) : String :=
  "Session<ID=" ++ goQuote s.ID ++ ", User=" ++ goQuote s.User ++
    ", Database=" ++ goQuote s.Database ++ ">"

/-!
## Sample values used by concrete evaluations
-/

/-- A concrete session for concrete evaluations. -/
def sampleSession : Session :=
  { ID := "3f1c", User := "", Database := "", IsSSL := false,
    salt := "s4lt", password := "" }

/-- The startup option map of the spec's scenario. -/
def aliceOptions : List (String × String) := [("user", "alice"), ("database", "app")]

/-- A server-direction state holding two buffered messages. -/
def sampleBufState : ServerDirState :=
  { initServerDirState with buf := [ServerMessage.other 1, ServerMessage.other 2] }

/-!
## Theorems
-/

/-- C10: the output of `Session.String` never contains the password
credential or the salt — two sessions identical except for their
`password` and `salt` fields produce the same `String()` output. -/
theorem C10_string_omits_password_and_salt (s : Session) (pwd sa : String) :
    sessionString { s with password := pwd, salt := sa } = sessionString s := rfl

/-- C5: if the registry's `Authenticate` reports failure without an error,
`Handle` writes exactly one `Error` message with severity `Fatal` to the
client, does not start the forwarding loop, and returns no error; if
`Authenticate` returns an error, `Handle` propagates it unchanged without
writing to the client. -/
theorem C5_handle_auth_failure_and_error (proxyRes : Option GoError) (e : GoError) :
    (handle AuthOutcome.failure proxyRes).clientWrites =
        [ServerMessage.error "Fatal" "failed to authenticate"]
      ∧ (handle AuthOutcome.failure proxyRes).proxied = false
      ∧ (handle AuthOutcome.failure proxyRes).result = none
      ∧ (handle (AuthOutcome.error e) proxyRes).clientWrites = []
      ∧ (handle (AuthOutcome.error e) proxyRes).proxied = false
      ∧ (handle (AuthOutcome.error e) proxyRes).result = some e :=
  ⟨rfl, rfl, rfl, rfl, rfl, rfl⟩

/-- C6: every parse of a client request or server response reports exactly
one log event — a debug-level event on success, an error-level event on a
non-end-of-stream failure — except that the error-level event is
suppressed when the session is already stopped, and an end-of-stream
result is never logged (in particular, never as an error). -/
theorem C6_parse_logging (stopped : Bool) (m : ClientMessage) (sm : ServerMessage)
    (e : String) :
    parseClientRequestLogs stopped (ParseResult.success m) =
        [LogEvent.debug "client request"]
      ∧ (stopped = false →
          parseClientRequestLogs stopped (ParseResult.failure e) =
            [LogEvent.error "error parsing client request: %s"])
      ∧ (stopped = true → parseClientRequestLogs stopped (ParseResult.failure e) = [])
      ∧ parseClientRequestLogs stopped ParseResult.eof = []
      ∧ parseServerResponseLogs stopped (ParseResult.success sm) =
          [LogEvent.debug "server response"]
      ∧ (stopped = false →
          parseServerResponseLogs stopped (ParseResult.failure e) =
            [LogEvent.error "error parsing server response: %#v"])
      ∧ (stopped = true → parseServerResponseLogs stopped (ParseResult.failure e) = [])
      ∧ parseServerResponseLogs stopped ParseResult.eof = [] := by
  cases stopped <;>
    simp [parseClientRequestLogs, parseServerResponseLogs]

/-- Witness for C6: a non-EOF parse failure on a live session produces
exactly one error-level event, and none once the session is stopped. -/
theorem C6_parse_logging_witness :
    parseClientRequestLogs false (ParseResult.failure "broken pipe") =
        [LogEvent.error "error parsing client request: %s"]
      ∧ parseClientRequestLogs true (ParseResult.failure "broken pipe") = [] :=
  ⟨(C6_parse_logging false (ClientMessage.other 0) (ServerMessage.other 0)
      "broken pipe").2.1 rfl,
   (C6_parse_logging true (ClientMessage.other 0) (ServerMessage.other 0)
      "broken pipe").2.2.1 rfl⟩

/-- C4: in the response direction, appending a `ReadyForQuery`, or an
`AuthenticationRequest` whose method is not OK, immediately triggers a
flush: the entire buffer including that message is written to the client
as one batched write and the buffer is cleared, regardless of the
buffer's current size. -/
theorem C4_sync_messages_flush_immediately (wr : Nat → Option GoError)
    (st : ServerDirState) (m : ServerMessage)
    (h : m = ServerMessage.readyForQuery ∨
      ∃ meth sa, meth ≠ AuthenticationMethod.OK ∧
        m = ServerMessage.authenticationRequest meth sa) :
    (serverHandleMsg wr st m).writes = st.writes ++ [st.buf ++ [m]]
      ∧ (serverHandleMsg wr st m).buf = [] := by
  have hf : shouldFlush m = true := by
    rcases h with rfl | ⟨meth, sa, hne, rfl⟩
    · rfl
    · simp [shouldFlush, hne]
  unfold serverHandleMsg
  dsimp only
  rw [if_pos (by simp [hf])]
  exact ⟨rfl, rfl⟩

/-- Witness for C4: a `ReadyForQuery` appended to a two-message buffer is
flushed at once together with both buffered messages. -/
theorem C4_sync_messages_flush_immediately_witness :
    (serverHandleMsg noWriteErrors sampleBufState ServerMessage.readyForQuery).writes =
        [[ServerMessage.other 1, ServerMessage.other 2, ServerMessage.readyForQuery]]
      ∧ (serverHandleMsg noWriteErrors sampleBufState ServerMessage.readyForQuery).buf =
        [] := by
  have h := C4_sync_messages_flush_immediately noWriteErrors sampleBufState
    ServerMessage.readyForQuery (Or.inl rfl)
  refine ⟨?_, h.2⟩
  rw [h.1]
  rfl

/-- C1 (code bug): `Session.proxy` never returns any recorded error.  The
goroutines append terminal errors only to by-value copies of the
zero-capacity `errs` slice header, so `len(errs)` in `proxy` stays 0 and
`proxy` — hence `Handle` — returns `nil` for every run; in particular for
a run whose server direction terminates first with an I/O error, the
error is recorded in the goroutine's local slice but dropped by `proxy`,
where the claim says it is returned. -/
theorem C1_proxy_drops_recorded_errors :
    (∀ (wr : Nat → Option GoError) (smsgs : List ServerMessage) (se : LoopEnd)
        (cmsgs : List ClientMessage) (ce : LoopEnd),
        proxyReturn (runProxy wr smsgs se cmsgs ce) = none)
      ∧ serverRecordedErrs
          (runProxy noWriteErrors [] (LoopEnd.failure "read: connection reset by peer")
            [] LoopEnd.eof) =
        [GoError.other "read: connection reset by peer"] := by
  constructor
  · intro wr smsgs se cmsgs ce
    rfl
  · rfl

/-- C7: startup parsing returns an SSL negotiation request unchanged
without extracting any options; for any other startup message, a missing
`user` or `database` option yields an error, and when both are present
the session's `User` and `Database` fields are set to those option
values. -/
theorem C7_parse_startup (s : Session) (options : List (String × String)) (u d : String) :
    (∀ opts, parseStartupMessage s (ParseResult.success (ClientMessage.startup true opts)) =
        (s, Except.ok (ClientMessage.startup true opts)))
      ∧ (lookupOption options "user" = none →
          (parseStartupMessage s
              (ParseResult.success (ClientMessage.startup false options))).2 =
            Except.error (GoError.other "no username sent with startup message"))
      ∧ (lookupOption options "user" = some u →
          lookupOption options "database" = none →
          (parseStartupMessage s
              (ParseResult.success (ClientMessage.startup false options))).2 =
            Except.error (GoError.other "no database name sent with startup message"))
      ∧ (lookupOption options "user" = some u →
          lookupOption options "database" = some d →
          parseStartupMessage s (ParseResult.success (ClientMessage.startup false options)) =
            ({ s with User := u, Database := d },
             Except.ok (ClientMessage.startup false options))) := by
  refine ⟨fun opts => rfl, ?_, ?_, ?_⟩
  · intro h1
    simp [parseStartupMessage, h1]
  · intro h1 h2
    simp [parseStartupMessage, h1, h2]
  · intro h1 h2
    simp [parseStartupMessage, h1, h2]

/-- Witness for C7: startup options `user = alice`, `database = app` yield
`User = "alice"` and `Database = "app"` and no error. -/
theorem C7_parse_startup_witness :
    parseStartupMessage sampleSession
        (ParseResult.success (ClientMessage.startup false aliceOptions)) =
      ({ sampleSession with User := "alice", Database := "app" },
       Except.ok (ClientMessage.startup false aliceOptions)) :=
  (C7_parse_startup sampleSession aliceOptions "alice" "app").2.2.2 (by decide) (by decide)

/-- C8: `GetUserPassword(method)` writes to the client an
`AuthenticationRequest` carrying the requested method and the session's
salt, then reads one client message; a message that is not a
`PasswordMessage` (or a parse failure) yields an error with the stored
password unchanged, and a `PasswordMessage` has its credential stored on
the session and returned with no error. -/
theorem C8_get_user_password (s : Session) (method : AuthenticationMethod)
    (parsed : ParseResult ClientMessage) (p : String) (m : ClientMessage) :
    (getUserPassword s method none parsed).clientWrites =
        [ServerMessage.authenticationRequest method s.salt]
      ∧ (parsed = ParseResult.success (ClientMessage.password p) →
          (getUserPassword s method none parsed).result =
              Except.ok (ServerMessage.authenticationRequest method s.salt,
                ClientMessage.password p)
            ∧ (getUserPassword s method none parsed).finalSession =
              { s with password := p })
      ∧ (parsed = ParseResult.success m → (∀ q : String, m ≠ ClientMessage.password q) →
          (∃ e, (getUserPassword s method none parsed).result = Except.error e)
            ∧ (getUserPassword s method none parsed).finalSession = s)
      ∧ ((parsed = ParseResult.eof ∨ ∃ e, parsed = ParseResult.failure e) →
          (∃ e, (getUserPassword s method none parsed).result = Except.error e)
            ∧ (getUserPassword s method none parsed).finalSession = s) := by
  refine ⟨?_, ?_, ?_, ?_⟩
  · cases parsed with
    | success msg => cases msg <;> rfl
    | eof => rfl
    | failure e => rfl
  · rintro rfl
    exact ⟨rfl, rfl⟩
  · rintro rfl hm
    cases m with
    | password q => exact absurd rfl (hm q)
    | startup b o => exact ⟨⟨_, rfl⟩, rfl⟩
    | termination => exact ⟨⟨_, rfl⟩, rfl⟩
    | other t => exact ⟨⟨_, rfl⟩, rfl⟩
  · rintro (rfl | ⟨e, rfl⟩) <;> exact ⟨⟨_, rfl⟩, rfl⟩

/-- Witness for C8: a `PasswordMessage` stores its credential on the
session; any other message leaves the stored password unchanged. -/
theorem C8_get_user_password_witness :
    (getUserPassword sampleSession AuthenticationMethod.md5 none
          (ParseResult.success (ClientMessage.password "hunter2"))).finalSession =
        { sampleSession with password := "hunter2" }
      ∧ (getUserPassword sampleSession AuthenticationMethod.md5 none
          (ParseResult.success ClientMessage.termination)).finalSession = sampleSession :=
  ⟨((C8_get_user_password sampleSession AuthenticationMethod.md5
      (ParseResult.success (ClientMessage.password "hunter2")) "hunter2"
      ClientMessage.termination).2.1 rfl).2,
   ((C8_get_user_password sampleSession AuthenticationMethod.md5
      (ParseResult.success ClientMessage.termination) "hunter2"
      ClientMessage.termination).2.2.1 rfl
      (fun _ h => ClientMessage.noConfusion h)).2⟩

/-- Helper: one loop iteration keeps the buffer at 15 messages or fewer
and every batch written at 16 or fewer. -/
lemma serverHandleMsg_inv (wr : Nat → Option GoError) (st : ServerDirState)
    (m : ServerMessage) (h1 : st.buf.length ≤ 15)
    (h2 : ∀ b ∈ st.writes, b.length ≤ 16) :
    (serverHandleMsg wr st m).buf.length ≤ 15 ∧
      ∀ b ∈ (serverHandleMsg wr st m).writes, b.length ≤ 16 := by
  unfold serverHandleMsg
  dsimp only
  split
  · refine ⟨by simp, ?_⟩
    intro b hb
    rcases List.mem_append.mp hb with hb | hb
    · exact h2 b hb
    · rw [List.mem_singleton] at hb
      subst hb
      simp only [List.length_append, List.length_singleton]
      omega
  · next hcond =>
      simp only [Bool.or_eq_true, decide_eq_true_eq, not_or, not_lt,
        List.length_append, List.length_singleton] at hcond
      refine ⟨?_, h2⟩
      simp only [List.length_append, List.length_singleton]
      omega

/-- Helper: the loop invariant holds along any run. -/
lemma serverDirRun_inv (wr : Nat → Option GoError) (msgs : List ServerMessage) :
    ∀ st : ServerDirState, st.buf.length ≤ 15 → (∀ b ∈ st.writes, b.length ≤ 16) →
      (serverDirRun wr st msgs).buf.length ≤ 15 ∧
        ∀ b ∈ (serverDirRun wr st msgs).writes, b.length ≤ 16 := by
  induction msgs with
  | nil => exact fun st h1 h2 => ⟨h1, h2⟩
  | cons m ms ih =>
      intro st h1 h2
      have h := serverHandleMsg_inv wr st m h1 h2
      exact ih (serverHandleMsg wr st m) h.1 h.2

/-- Helper: the loop end leaves buffer and writes untouched. -/
lemma serverDirEnd_buf (stopped : Bool) (st : ServerDirState) (e : LoopEnd) :
    (serverDirEnd stopped st e).buf = st.buf ∧
      (serverDirEnd stopped st e).writes = st.writes := by
  cases e <;> exact ⟨rfl, rfl⟩

/-- Helper: `serverDirRun` decomposes over list append. -/
lemma serverDirRun_append (wr : Nat → Option GoError) (st : ServerDirState)
    (l1 l2 : List ServerMessage) :
    serverDirRun wr st (l1 ++ l2) = serverDirRun wr (serverDirRun wr st l1) l2 := by
  simp [serverDirRun, List.foldl_append]

/-- Helper: `serverDirRun` steps through the list head. -/
lemma serverDirRun_cons (wr : Nat → Option GoError) (st : ServerDirState)
    (m : ServerMessage) (ms : List ServerMessage) :
    serverDirRun wr st (m :: ms) = serverDirRun wr (serverHandleMsg wr st m) ms := rfl

/-- Helper: messages that trigger no flush and fit under the threshold
accumulate in the buffer without any write. -/
lemma serverDirRun_noflush (wr : Nat → Option GoError) :
    ∀ (msgs : List ServerMessage) (st : ServerDirState),
      (∀ x ∈ msgs, shouldFlush x = false) → st.buf.length + msgs.length ≤ 15 →
      (serverDirRun wr st msgs).buf = st.buf ++ msgs ∧
        (serverDirRun wr st msgs).writes = st.writes := by
  intro msgs
  induction msgs with
  | nil => exact fun st _ _ => ⟨by simp [serverDirRun], rfl⟩
  | cons m ms ih =>
      intro st hflush hlen
      have hm : shouldFlush m = false := hflush m (List.mem_cons_self m ms)
      simp only [List.length_cons] at hlen
      have hstep : serverHandleMsg wr st m =
          { st with
              buf := st.buf ++ [m],
              logs := st.logs ++ [LogEvent.debug "server response"] } := by
        unfold serverHandleMsg
        dsimp only
        rw [if_neg (by
          simp only [hm, Bool.false_or, decide_eq_true_eq, not_lt,
            List.length_append, List.length_singleton]
          omega)]
      rw [serverDirRun_cons, hstep]
      obtain ⟨hbuf, hwrites⟩ :=
        ih { st with
              buf := st.buf ++ [m],
              logs := st.logs ++ [LogEvent.debug "server response"] }
          (fun x hx => hflush x (List.mem_cons_of_mem m hx))
          (by simp only [List.length_append, List.length_singleton]; omega)
      refine ⟨?_, hwrites⟩
      rw [hbuf]
      simp

/-- Helper: a no-flush message arriving on a 15-message buffer trips the
size threshold: the 16-message buffer is written and cleared. -/
lemma serverHandleMsg_flush16 (wr : Nat → Option GoError) (st : ServerDirState)
    (m : ServerMessage) (hm : shouldFlush m = false) (hlen : st.buf.length = 15) :
    (serverHandleMsg wr st m).buf = [] ∧
      (serverHandleMsg wr st m).writes = st.writes ++ [st.buf ++ [m]] := by
  unfold serverHandleMsg
  dsimp only
  rw [if_pos]
  · exact ⟨rfl, rfl⟩
  · simp [hm, hlen]

/-- C2 counterexample: after 15 buffered non-synchronizing messages no
flush has occurred and the buffer holds all 15; only the 16th message
triggers the size-based flush, whose single batch holds 16 messages —
so the buffer does hold more than 15 messages before the forced flush,
and the flush fires later than immediately after the 15th message. -/
theorem C2_counterexample :
    (serverDirRun noWriteErrors initServerDirState
        (List.replicate 15 (ServerMessage.other 0))).writes = []
      ∧ (serverDirRun noWriteErrors initServerDirState
          (List.replicate 15 (ServerMessage.other 0))).buf.length = 15
      ∧ (serverDirRun noWriteErrors initServerDirState
          (List.replicate 16 (ServerMessage.other 0))).writes =
        [List.replicate 16 (ServerMessage.other 0)] := by
  refine ⟨rfl, rfl, rfl⟩

/-- C2 (amended): the outbound buffer never holds more than 16 messages —
every batched write, the size-triggered ones included, contains at most
16 messages, and between iterations at most 15 messages remain buffered;
equivalently, the size-based flush fires no later than immediately after
the 16th buffered message. -/
theorem C2_amended_buffer_bound (wr : Nat → Option GoError) (stopped : Bool)
    (msgs : List ServerMessage) (e : LoopEnd) :
    (serverDirRun wr initServerDirState msgs).buf.length ≤ 15
      ∧ ∀ b ∈ (serverDirection wr stopped msgs e).writes, b.length ≤ 16 := by
  have hrun := serverDirRun_inv wr msgs initServerDirState
    (by simp [initServerDirState]) (by simp [initServerDirState])
  refine ⟨hrun.1, ?_⟩
  intro b hb
  unfold serverDirection at hb
  have hend := serverDirEnd_buf stopped (serverDirRun wr initServerDirState msgs) e
  revert hb
  unfold serverDirFinal
  split
  · intro hb
    rcases List.mem_append.mp hb with hb | hb
    · exact hrun.2 b (hend.2 ▸ hb)
    · rw [List.mem_singleton] at hb
      subst hb
      rw [hend.1]
      omega
  · intro hb
    exact hrun.2 b (hend.2 ▸ hb)

/-- Witness for C2 (amended): the size-triggered batch of a 16-message
run is within the 16-message bound. -/
theorem C2_amended_buffer_bound_witness :
    (List.replicate 16 (ServerMessage.other 0)).length ≤ 16 :=
  (C2_amended_buffer_bound noWriteErrors false
      (List.replicate 16 (ServerMessage.other 0)) LoopEnd.eof).2
    (List.replicate 16 (ServerMessage.other 0)) (by decide)

set_option maxRecDepth 4000 in
/-- C3 counterexample: 20 consecutive non-synchronizing server messages
followed by end of stream produce two batched writes of 16 and 4
messages — not, as claimed, 15 and 5. -/
theorem C3_counterexample :
    (serverDirection noWriteErrors false
        (List.replicate 20 (ServerMessage.other 0)) LoopEnd.eof).writes =
      [List.replicate 16 (ServerMessage.other 0),
        List.replicate 4 (ServerMessage.other 0)]
      ∧ [List.replicate 16 (ServerMessage.other 0),
          List.replicate 4 (ServerMessage.other 0)] ≠
        [List.replicate 15 (ServerMessage.other 0),
          List.replicate 5 (ServerMessage.other 0)] := by
  refine ⟨rfl, by decide⟩

/-- C3 (amended): if the response direction processes exactly 20
consecutive server messages none of which is a `ReadyForQuery` or an
`AuthenticationRequest` with method other than OK, and the direction then
ends, exactly two batched writes occur: one triggered after the 16th
message (containing the first 16 messages), and one containing the
remaining 4 messages when the direction ends. -/
theorem C3_amended_two_flushes (wr : Nat → Option GoError) (stopped : Bool)
    (e : LoopEnd) (a : List ServerMessage) (m : ServerMessage)
    (b : List ServerMessage) (ha : a.length = 15) (hb : b.length = 4)
    (hna : ∀ x ∈ a, shouldFlush x = false) (hm : shouldFlush m = false)
    (hnb : ∀ x ∈ b, shouldFlush x = false) :
    (serverDirection wr stopped (a ++ m :: b) e).writes = [a ++ [m], b] := by
  obtain ⟨hbufA, hwrA⟩ := serverDirRun_noflush wr a initServerDirState hna
    (by simp [initServerDirState, ha])
  obtain ⟨hbufM, hwrM⟩ := serverHandleMsg_flush16 wr
    (serverDirRun wr initServerDirState a) m hm
    (by rw [hbufA]; simp [initServerDirState, ha])
  obtain ⟨hbufB, hwrB⟩ := serverDirRun_noflush wr b
    (serverHandleMsg wr (serverDirRun wr initServerDirState a) m) hnb
    (by rw [hbufM]; simp [hb])
  have hend := serverDirEnd_buf stopped
    (serverDirRun wr (serverHandleMsg wr (serverDirRun wr initServerDirState a) m) b) e
  unfold serverDirection
  rw [serverDirRun_append, serverDirRun_cons]
  unfold serverDirFinal
  rw [if_pos (by rw [hend.1, hbufB, hbufM]; simp [hb])]
  rw [hend.1, hend.2, hbufB, hbufM, hwrB, hwrM, hwrA, hbufA]
  simp [initServerDirState]

/-- Witness for C3 (amended): 15 row messages, one more row message, then
4 trailing messages and end of stream yield exactly the two batches of 16
and 4. -/
theorem C3_amended_two_flushes_witness :
    (serverDirection noWriteErrors false
        (List.replicate 15 (ServerMessage.other 7) ++ ServerMessage.other 8 ::
          List.replicate 4 (ServerMessage.other 9)) LoopEnd.eof).writes =
      [List.replicate 15 (ServerMessage.other 7) ++ [ServerMessage.other 8],
        List.replicate 4 (ServerMessage.other 9)] :=
  C3_amended_two_flushes noWriteErrors false LoopEnd.eof
    (List.replicate 15 (ServerMessage.other 7)) (ServerMessage.other 8)
    (List.replicate 4 (ServerMessage.other 9))
    (by decide) (by decide) (by decide) (by decide) (by decide)

/-- Helper: one server-direction iteration commutes with the projection
onto write-oracle-free observables. -/
lemma serverHandleMsg_obs (wr : Nat → Option GoError) (st : ServerDirState)
    (m : ServerMessage) :
    (serverHandleMsg wr st m).obs = serverObsStep st.obs m := by
  unfold serverHandleMsg serverObsStep ServerDirState.obs
  dsimp only
  split <;> rfl

/-- Helper: a server-direction run commutes with the projection onto
write-oracle-free observables. -/
lemma serverDirRun_obs (wr : Nat → Option GoError) (msgs : List ServerMessage) :
    ∀ st : ServerDirState,
      (serverDirRun wr st msgs).obs = List.foldl serverObsStep st.obs msgs := by
  induction msgs with
  | nil => exact fun st => rfl
  | cons m ms ih =>
      intro st
      rw [serverDirRun_cons, ih (serverHandleMsg wr st m), serverHandleMsg_obs]
      rfl

/-- Helper: the server-direction loop end commutes with the projection. -/
lemma serverDirEnd_obs (stopped : Bool) (st : ServerDirState) (e : LoopEnd) :
    (serverDirEnd stopped st e).obs = serverObsEnd stopped st.obs e := by
  cases e <;> rfl

/-- Helper: the final flush commutes with the projection. -/
lemma serverDirFinal_obs (wr : Nat → Option GoError) (st : ServerDirState) :
    (serverDirFinal wr st).obs = serverObsFinal st.obs := by
  unfold serverDirFinal serverObsFinal ServerDirState.obs
  dsimp only
  split <;> rfl

/-- Helper: a full server-direction run projects onto a composite that
never consults the write oracle. -/
lemma serverDirection_obs (wr : Nat → Option GoError) (stopped : Bool)
    (msgs : List ServerMessage) (e : LoopEnd) :
    (serverDirection wr stopped msgs e).obs =
      serverObsFinal (serverObsEnd stopped
        (List.foldl serverObsStep initServerDirState.obs msgs) e) := by
  unfold serverDirection
  rw [serverDirFinal_obs, serverDirEnd_obs, serverDirRun_obs]

/-- Helper: a client-direction run commutes with the projection onto
write-oracle-free observables. -/
lemma clientDirRun_obs (wr : Nat → Option GoError) (msgs : List ClientMessage) :
    ∀ st : ClientDirState,
      (clientDirRun wr st msgs).obs = clientObsRun st.obs msgs := by
  induction msgs with
  | nil => exact fun st => rfl
  | cons m ms ih =>
      intro st
      unfold clientDirRun clientObsRun
      dsimp only
      split
      · rfl
      · rw [ih]
        rfl

/-- Helper: the client-direction loop end commutes with the projection. -/
lemma clientDirEnd_obs (stopped : Bool) (st : ClientDirState) (e : LoopEnd) :
    (clientDirEnd stopped st e).obs = clientObsEnd stopped st.obs e := by
  cases e <;> rfl

/-- Helper: a full client-direction run projects onto a composite that
never consults the write oracle. -/
lemma clientDirection_obs (wr : Nat → Option GoError) (stopped : Bool)
    (msgs : List ClientMessage) (e : LoopEnd) :
    (clientDirection wr stopped msgs e).obs =
      (if (clientObsRun initClientDirState.obs msgs).terminated then
        clientObsRun initClientDirState.obs msgs
      else clientObsEnd stopped (clientObsRun initClientDirState.obs msgs) e) := by
  unfold clientDirection
  dsimp only
  have hrun := clientDirRun_obs wr msgs initClientDirState
  have hterm : (clientDirRun wr initClientDirState msgs).terminated =
      (clientObsRun initClientDirState.obs msgs).terminated :=
    congrArg ClientObs.terminated hrun
  split
  · rw [if_pos (by rw [← hterm]; assumption), hrun]
  · rw [if_neg (by rw [← hterm]; assumption), clientDirEnd_obs, hrun]

/-- C9: in both forwarding directions a write failure is silently
ignored — for any two write oracles (hence for any pattern of write
errors), the buffer, the batched writes, the forwarded messages, the
recorded terminal errors, the log events and the termination flag of a
direction's run are identical: a failed write does not end the direction,
is not recorded as the session's terminal error, produces no log event,
and the loop proceeds to parse the next message exactly as it would had
the write succeeded. -/
theorem C9_write_failures_silently_ignored (w1 w2 : Nat → Option GoError)
    (stopped : Bool) (smsgs : List ServerMessage) (se : LoopEnd)
    (cmsgs : List ClientMessage) (ce : LoopEnd) :
    (serverDirection w1 stopped smsgs se).obs =
        (serverDirection w2 stopped smsgs se).obs
      ∧ (clientDirection w1 stopped cmsgs ce).obs =
        (clientDirection w2 stopped cmsgs ce).obs := by
  constructor
  · rw [serverDirection_obs, serverDirection_obs]
  · rw [clientDirection_obs, clientDirection_obs]
